import Mathlib

/-!
Shallow embedding of the analytical core of the EmpresaSoftware decision-support
dashboard (source files: `kpi_calculator.py`, `balanced_scorecard.py`,
`olap_functions.py`, `rayleigh_model.py`).

Modelling conventions:
* Python numbers (ints and floats) are modelled as exact rationals `ℚ`, except
  for the Rayleigh-curve pipeline, which needs `Real.exp` and is modelled over `ℝ`.
  Decimal literals of the source (`0.4`, `1.3`, ...) are taken at their decimal
  value; floating-point representation error is abstracted away.
* pandas DataFrames are modelled as lists of records (one structure per schema).
  A missing (`NaN`) profit value is modelled with `Option`, since the source
  tests `notna()` on that column.
* Functions are total; the "this never raises" part of a claim is realised by
  the embedding being a total function on the record-list model.
-/

namespace EmpresaSoftware

/-- Round half to even (Python's `round` semantics on exact values). -/
def round_half_even (q : ℚ) : ℤ :=
  let n := ⌊q⌋
  let f := q - n
  if f < 1/2 then n
  else if 1/2 < f then n + 1
  else if Even n then n else n + 1

/-- `round(q, d)` of Python, on exact rationals. -/
def py_round (q : ℚ) (d : ℕ) : ℚ :=
  (round_half_even (q * 10 ^ d) : ℚ) / 10 ^ d

/-! ## balanced_scorecard.py — data model -/

/-- `KeyResult` dataclass of `balanced_scorecard.py`. -/
structure KeyResult where
  kr : String
  target : ℚ
  current : ℚ
  unit : String
deriving Repr, DecidableEq

/-- `KeyResult.progress` property:
`if self.target == 0: return 100.0 if self.current >= 0 else 0.0` and
otherwise `min((self.current / self.target) * 100, 100.0)`. -/
def KeyResult.progress (k : KeyResult) : ℚ :=
  if k.target = 0 then (if 0 ≤ k.current then 100 else 0)
  else min (k.current / k.target * 100) 100

/-- `KeyResult.status` property (90/70 thresholds). -/
def KeyResult.status (k : KeyResult) : String :=
  if k.progress ≥ 90 then "On Track"
  else if k.progress ≥ 70 then "At Risk"
  else "Off Track"

/-- `OKR` dataclass of `balanced_scorecard.py`. -/
structure OKR where
  objective : String
  key_results : List KeyResult
  owner : String
  quarter : String
  perspective : String
deriving Repr, DecidableEq

/-- `OKR.overall_progress`: mean of the key results' progress, `0.0` when there
are no key results. -/
def OKR.overall_progress (o : OKR) : ℚ :=
  if o.key_results.isEmpty then 0
  else (o.key_results.map KeyResult.progress).sum / o.key_results.length

/-- `OKR.status` property (90/70 thresholds on `overall_progress`). -/
def OKR.status (o : OKR) : String :=
  if o.overall_progress ≥ 90 then "On Track"
  else if o.overall_progress ≥ 70 then "At Risk"
  else "Off Track"

/-! ## Source record collections -/

/-- A row of the Projects source.  `ganancia_neta` and `costo_total_real` are
`Option ℚ` because pandas cells can be `NaN` and `calculate_budget_efficiency`
tests `notna()`; a pandas comparison `NaN > 0` is `False`, which `optPos`
reproduces for `none`. -/
structure ProjectRecord where
  nombre_proyecto : String
  nombre_cliente : String
  ganancia_neta : Option ℚ
  costo_total_real : Option ℚ
  nombre_pais : String
deriving Repr, DecidableEq

/-- A row of the Quality/Defects source. -/
structure QualityRecord where
  nombre_proyecto : String
  severidad : String
  cantidad_defectos_encontrados : ℚ
deriving Repr, DecidableEq

/-- pandas `x > 0` over a possibly-`NaN` cell: `NaN > 0` is `False`. -/
def optPos (x : Option ℚ) : Bool :=
  match x with
  | some q => 0 < q
  | none => false

/-! ## kpi_calculator.py — the six KPI calculators

Each calculator returns a value plus a metadata dict; the dict is modelled as a
structure whose fields are the dict's keys.  The source's empty-input branches
omit some metadata keys; the model keeps all fields and zeroes them there
(key-presence is not load-bearing for any property proved below). -/

/-- Return value of `calculate_completion_rate`. -/
structure CompletionRateResult where
  value : ℚ
  completed : ℕ
  total : ℕ
  in_progress : ℕ
  status : String
deriving Repr, DecidableEq

/-- `calculate_completion_rate` of `kpi_calculator.py`. -/
def calculate_completion_rate (df_proy : List ProjectRecord) : CompletionRateResult :=
  if df_proy.isEmpty then ⟨0, 0, 0, 0, "No data"⟩
  else
    let total_projects := df_proy.length
    let completed_projects := (df_proy.filter (fun p => optPos p.ganancia_neta)).length
    let rate : ℚ :=
      if total_projects > 0 then (completed_projects : ℚ) / total_projects * 100 else 0
    ⟨py_round rate 2, completed_projects, total_projects,
     total_projects - completed_projects,
     if rate ≥ 80 then "healthy" else if rate ≥ 50 then "warning" else "critical"⟩

/-- Return value of `calculate_budget_efficiency`. -/
structure BudgetEfficiencyResult where
  value : ℚ
  avg_roi : ℚ
  best_roi : ℚ
  worst_roi : ℚ
  projects_analyzed : ℕ
  status : String
deriving Repr, DecidableEq

/-- `calculate_budget_efficiency`: restrict to rows with
`costo_total_real > 0` and non-null `ganancia_neta`, take the mean per-row ROI. -/
def calculate_budget_efficiency (df_proy : List ProjectRecord) : BudgetEfficiencyResult :=
  let df_valid := df_proy.filter
    (fun p => optPos p.costo_total_real && p.ganancia_neta.isSome)
  if df_valid.isEmpty then ⟨0, 0, 0, 0, 0, "No data"⟩
  else
    let rois : List ℚ := df_valid.map
      (fun p => p.ganancia_neta.getD 0 / p.costo_total_real.getD 0 * 100)
    let avg_efficiency : ℚ := rois.sum / rois.length
    ⟨py_round avg_efficiency 2, py_round avg_efficiency 2,
     py_round ((rois.max?).getD 0) 2, py_round ((rois.min?).getD 0) 2,
     df_valid.length,
     if avg_efficiency ≥ 30 then "healthy"
     else if avg_efficiency ≥ 15 then "warning" else "critical"⟩

/-- Return value of `calculate_team_utilization`. -/
structure TeamUtilizationResult where
  value : ℚ
  active_projects : ℕ
  total_projects : ℕ
  idle_projects : ℕ
  unique_clients : ℕ
  status : String
deriving Repr, DecidableEq

/-- `calculate_team_utilization`: active projects have profit or cost. -/
def calculate_team_utilization (df_proy : List ProjectRecord) : TeamUtilizationResult :=
  if df_proy.isEmpty then ⟨0, 0, 0, 0, 0, "No data"⟩
  else
    let total_projects := df_proy.length
    let active_projects := (df_proy.filter
      (fun p => optPos p.ganancia_neta || optPos p.costo_total_real)).length
    let utilization : ℚ :=
      if total_projects > 0 then (active_projects : ℚ) / total_projects * 100 else 0
    let unique_clients := ((df_proy.map (·.nombre_cliente)).dedup).length
    ⟨py_round utilization 2, active_projects, total_projects,
     total_projects - active_projects, unique_clients,
     if utilization ≥ 70 then "healthy"
     else if utilization ≥ 50 then "warning" else "critical"⟩

/-- Return value of `calculate_defect_density`. -/
structure DefectDensityResult where
  value : ℚ
  total_defects : ℚ
  total_projects : ℕ
  density : ℚ
  severity_breakdown : List (String × ℚ)
  status : String
deriving Repr, DecidableEq

/-- `calculate_defect_density`: total defects over distinct project count.
The severity breakdown (`groupby('severidad').sum()`) is modelled in
first-occurrence order; pandas sorts the group keys, which permutes this
association list but no value. -/
def calculate_defect_density (df_cal : List QualityRecord)
    (df_proy : List ProjectRecord) : DefectDensityResult :=
  if df_cal.isEmpty || df_proy.isEmpty then ⟨0, 0, 0, 0, [], "No data"⟩
  else
    let total_defects := (df_cal.map (·.cantidad_defectos_encontrados)).sum
    let total_projects := ((df_proy.map (·.nombre_proyecto)).dedup).length
    let density : ℚ := if total_projects > 0 then total_defects / total_projects else 0
    let severity_breakdown := ((df_cal.map (·.severidad)).dedup).map
      (fun s => (s, ((df_cal.filter (fun r => r.severidad == s)).map
                      (·.cantidad_defectos_encontrados)).sum))
    ⟨py_round density 2, total_defects, total_projects, py_round density 2,
     severity_breakdown,
     if density ≤ 10 then "healthy" else if density ≤ 25 then "warning" else "critical"⟩

/-- Severity-to-days mapping of `calculate_avg_resolution_time`, including the
`.fillna(2)` default for unknown severities. -/
def severity_days (s : String) : ℚ :=
  if s = "crítica" then 7
  else if s = "alta" then 4
  else if s = "media" then 2
  else if s = "baja" then 1
  else if s = "nula" then 1/2
  else 2

/-- Return value of `calculate_avg_resolution_time`. -/
structure AvgResolutionResult where
  value : ℚ
  avg_days : ℚ
  total_defects : ℚ
  resolution_by_severity : List (String × ℚ × ℚ)
  status : String
deriving Repr, DecidableEq

/-- `calculate_avg_resolution_time`: defect-count-weighted average of the
severity-to-days constants. -/
def calculate_avg_resolution_time (df_cal : List QualityRecord) : AvgResolutionResult :=
  if df_cal.isEmpty then ⟨0, 0, 0, [], "No data"⟩
  else
    let total_defects := (df_cal.map (·.cantidad_defectos_encontrados)).sum
    if total_defects = 0 then ⟨0, 0, 0, [], "No defects"⟩
    else
      let weighted := (df_cal.map
        (fun r => severity_days r.severidad * r.cantidad_defectos_encontrados)).sum
      let avg_resolution := weighted / total_defects
      let by_sev := [("crítica", (7:ℚ)), ("alta", 4), ("media", 2), ("baja", 1), ("nula", 1/2)].filterMap
        (fun sd =>
          let count : ℚ := ((df_cal.filter (fun r => r.severidad == sd.1)).map
                          (·.cantidad_defectos_encontrados)).sum
          if 0 < count then some (sd.1, sd.2, count) else none)
      ⟨py_round avg_resolution 1, py_round avg_resolution 1, total_defects, by_sev,
       if avg_resolution ≤ 3 then "healthy"
       else if avg_resolution ≤ 5 then "warning" else "critical"⟩

/-- Return value of `calculate_client_satisfaction`. -/
structure ClientSatisfactionResult where
  value : ℚ
  index : ℚ
  budget_component : ℚ
  quality_component : ℚ
  budget_efficiency : ℚ
  defect_density : ℚ
  status : String
deriving Repr, DecidableEq

/-- `calculate_client_satisfaction`: composite `0.4 * budget_score +
0.6 * quality_score` with `budget_score = min(budget_eff * 2, 100)` and
`quality_score = max(100 - defect_density * 2, 0)`. -/
def calculate_client_satisfaction (df_proy : List ProjectRecord)
    (df_cal : List QualityRecord) : ClientSatisfactionResult :=
  let budget_eff := (calculate_budget_efficiency df_proy).value
  let budget_score := min (budget_eff * 2) 100
  let defect_density := (calculate_defect_density df_cal df_proy).value
  let quality_score := max (100 - defect_density * 2) 0
  let satisfaction_index := budget_score * (2/5) + quality_score * (3/5)
  ⟨py_round satisfaction_index 1, py_round satisfaction_index 1,
   py_round budget_score 1, py_round quality_score 1, budget_eff, defect_density,
   if satisfaction_index ≥ 70 then "healthy"
   else if satisfaction_index ≥ 50 then "warning" else "critical"⟩

/-- A row of the `thresholds` table of `get_kpi_color`. -/
structure KpiThreshold where
  green : ℚ
  yellow : ℚ
  inverse : Bool
deriving Repr, DecidableEq

/-- The `thresholds` dict of `get_kpi_color` (`none` = key absent). -/
def kpi_thresholds (kpi_type : String) : Option KpiThreshold :=
  if kpi_type = "completion_rate" then some ⟨80, 50, false⟩
  else if kpi_type = "budget_efficiency" then some ⟨30, 15, false⟩
  else if kpi_type = "team_utilization" then some ⟨70, 50, false⟩
  else if kpi_type = "defect_density" then some ⟨10, 25, true⟩
  else if kpi_type = "avg_resolution_time" then some ⟨3, 5, true⟩
  else if kpi_type = "client_satisfaction" then some ⟨70, 50, false⟩
  else none

/-- `get_kpi_color` of `kpi_calculator.py`. -/
def get_kpi_color (value : ℚ) (kpi_type : String) : String :=
  match kpi_thresholds kpi_type with
  | none => "gray"
  | some threshold =>
    if threshold.inverse then
      if value ≤ threshold.green then "green"
      else if value ≤ threshold.yellow then "yellow"
      else "red"
    else
      if value ≥ threshold.green then "green"
      else if value ≥ threshold.yellow then "yellow"
      else "red"

/-! ## balanced_scorecard.py — OKR hierarchy -/

/-- A node of the dict tree built by `create_okr_hierarchy`.  `value` is
`none` when the Python dict has no `'value'` key (root and perspective
nodes); leaves have `children = []` (no `'children'` key). -/
inductive HNode where
  | mk (name : String) (value : Option ℚ) (children : List HNode)

/-- Node label. -/
def HNode.name : HNode → String
  | .mk n _ _ => n

/-- Node numeric value, when the dict carries one. -/
def HNode.value : HNode → Option ℚ
  | .mk _ v _ => v

/-- Child nodes. -/
def HNode.children : HNode → List HNode
  | .mk _ _ c => c

/-- The label truncation `s[:limit] + '...' if len(s) > limit else s`. -/
def truncate_label (limit : ℕ) (s : String) : String :=
  if s.length > limit then (s.take limit) ++ "..." else s

/-- The objective-level node of `create_okr_hierarchy`: truncated objective
text, value = overall progress, children = key-result leaves (truncated text,
value = progress). -/
def okr_node (okr : OKR) : HNode :=
  .mk (truncate_label 40 okr.objective) (some okr.overall_progress)
    (okr.key_results.map (fun kr => .mk (truncate_label 30 kr.kr) (some kr.progress) []))

/-- `create_okr_hierarchy` of `balanced_scorecard.py`: root "Strategic OKRs",
one child per perspective in first-seen order (Python dicts preserve insertion
order), each perspective node holding its objectives' nodes.  Note that the
source gives perspective nodes only `'name'` and `'children'` keys. -/
def create_okr_hierarchy (okrs : List OKR) : HNode :=
  .mk "Strategic OKRs" none
    (((okrs.map (·.perspective)).dedup).map (fun p =>
      .mk p none ((okrs.filter (fun o => o.perspective == p)).map okr_node)))

/-! ## rayleigh_model.py — calibration, recommendation, validation -/

/-- Per-project defect totals
(`df_cal.groupby('nombre_proyecto')['cantidad_defectos_encontrados'].sum()`),
in first-occurrence project order; pandas sorts group keys, which permutes the
list but not its emptiness, mean or standard deviation. -/
def project_defect_sums (df_cal : List QualityRecord) : List ℚ :=
  ((df_cal.map (·.nombre_proyecto)).dedup).map
    (fun p => ((df_cal.filter (fun r => r.nombre_proyecto == p)).map
                (·.cantidad_defectos_encontrados)).sum)

/-- The dict returned by `calibrate_rayleigh_sigma`.  `Option` fields are keys
that only one of the two branches emits (`xlarge` and the historical figures
are absent in the no-data branch). -/
structure SigmaCalibration where
  sigma_default : ℚ
  small : ℚ
  medium : ℚ
  large : ℚ
  xlarge : Option ℚ
  avg_historical_defects : Option ℝ
  std_historical_defects : Option ℝ
  confidence : ℚ

/-- `calibrate_rayleigh_sigma` of `rayleigh_model.py`.  With no historical
records it returns the fallback `{default: 60, small: 40, medium: 60,
large: 90, confidence: 0.5}`; otherwise `default = 165 * 0.4 = 66`,
`small = 40.0`, `medium = 66.0`, `large = 100.0`, `xlarge = 144.0`, plus the
mean and sample standard deviation (pandas `ddof=1`) of the per-project
totals and `confidence = 0.8`.  (`df_proy` is accepted and unused, as in the
source.  For a single project pandas' std is `NaN`; this model yields `0`
there, a case no theorem below exercises.) -/
noncomputable def calibrate_rayleigh_sigma (df_cal : List QualityRecord)
    (df_proy : List ProjectRecord) : SigmaCalibration :=
  let project_defects := project_defect_sums df_cal
  if project_defects.isEmpty then
    { sigma_default := 60, small := 40, medium := 60, large := 90, xlarge := none,
      avg_historical_defects := none, std_historical_defects := none,
      confidence := 1/2 }
  else
    let avg_defects : ℝ := (project_defects.sum : ℝ) / project_defects.length
    let std_defects : ℝ := Real.sqrt
      ((project_defects.map (fun x => ((x : ℝ) - avg_defects) ^ 2)).sum /
        (project_defects.length - 1))
    { sigma_default := 165 * (2/5), small := 40, medium := 66, large := 100,
      xlarge := some 144,
      avg_historical_defects := some avg_defects,
      std_historical_defects := some std_defects,
      confidence := 4/5 }

/-- The dict returned by `recommend_qa_resources` (the formatted Spanish
`recommendation` text, presentation only, is not modelled). -/
structure QAResources where
  qa_engineers : ℤ
  qa_hours_total : ℚ
  qa_hours_per_month : ℚ
  risk_level : String
  risk_color : String
deriving Repr, DecidableEq

/-- `recommend_qa_resources` of `rayleigh_model.py`. -/
def recommend_qa_resources (predicted_defects : ℚ) (duration_months : ℤ) : QAResources :=
  let base_qa := predicted_defects / 50
  let duration_mult : ℚ :=
    if duration_months ≤ 3 then 13/10
    else if duration_months ≤ 6 then 1
    else 9/10
  let recommended_qa := max (base_qa * duration_mult) 1
  let qa_hours := predicted_defects * 2
  { qa_engineers := ⌈recommended_qa⌉,
    qa_hours_total := py_round qa_hours 0,
    qa_hours_per_month := py_round (qa_hours / duration_months) 0,
    risk_level :=
      if predicted_defects < 30 then "Bajo"
      else if predicted_defects < 80 then "Medio"
      else "Alto",
    risk_color :=
      if predicted_defects < 30 then "green"
      else if predicted_defects < 80 then "yellow"
      else "red" }

/-- `validate_prediction_inputs` of `rayleigh_model.py`. -/
def validate_prediction_inputs (project_size duration_months team_size : ℤ) :
    Bool × String :=
  if project_size < 100 then
    (false, "Tamaño de proyecto debe ser al menos 100 LOC")
  else if project_size > 10000000 then
    (false, "Tamaño de proyecto demasiado grande (>10M LOC)")
  else if duration_months < 1 ∨ duration_months > 36 then
    (false, "Duración debe estar entre 1 y 36 meses")
  else if team_size < 1 ∨ team_size > 100 then
    (false, "Tamaño de equipo debe estar entre 1 y 100 desarrolladores")
  else
    (true, "")

/-! ## olap_functions.py — slice / drill_down / roll_up

A pandas DataFrame is modelled as a list of column names, a list of the
columns that have numeric dtype, and rows that are total functions from
column names to cells.  A cell is either a string or a number. -/

/-- A DataFrame cell. -/
inductive Value where
  | str : String → Value
  | num : ℚ → Value
deriving Repr, DecidableEq

/-- Numeric content of a cell (`0` for a string cell; in a column of numeric
dtype every cell is `num`). -/
def Value.toNum : Value → ℚ
  | .str _ => 0
  | .num q => q

/-- The tabular model of a pandas DataFrame. -/
structure DataFrame where
  cols : List String
  numericCols : List String
  rows : List (String → Value)

/-- `slice_olap(df, dimension, value)`: raise `ValueError` when the dimension
is not a column, else keep the rows whose cell equals `value`. -/
def slice_olap (df : DataFrame) (dimension : String) (value : Value) :
    Except String DataFrame :=
  if dimension ∈ df.cols then
    .ok ⟨df.cols, df.numericCols,
         df.rows.filter (fun r => r dimension == value)⟩
  else
    .error ("Dimension '" ++ dimension ++ "' not found in DataFrame.")

/-- The group key of a row: its tuple of values over the grouping columns. -/
def keyOf (group_cols : List String) (r : String → Value) : List Value :=
  group_cols.map r

/-- The grouping columns computed by both `drill_down` and `roll_up`:
the hierarchy prefix up to and including the target level, restricted to
columns present in the frame. -/
def group_columns (df : DataFrame) (hierarchy : List String)
    (target_level : String) : List String :=
  (hierarchy.take (hierarchy.indexOf target_level + 1)).filter
    (fun c => c ∈ df.cols)

/-- One aggregated output row of `groupby(group_cols).agg(...)`: grouping
columns keep their (per-group constant) value, numeric columns are summed over
the group, non-numeric columns take the first value of the group. -/
def agg_row (df : DataFrame) (group_cols : List String) (k : List Value) :
    String → Value := fun c =>
  let grp := df.rows.filter (fun r => keyOf group_cols r == k)
  if c ∈ group_cols then
    match grp.head? with
    | some r => r c
    | none => .str ""
  else if c ∈ df.numericCols then
    .num ((grp.map (fun r => (r c).toNum)).sum)
  else
    match grp.head? with
    | some r => r c
    | none => .str ""

/-- `drill_down(df, dimension, hierarchy, target_level)`: group by the
hierarchy prefix, summing numeric and taking the first of non-numeric columns.
Groups appear in first-occurrence order of their key (pandas sorts group keys,
which permutes the output rows but no aggregated value).  `dimension` is
accepted and unused, as in the source. -/
def drill_down (df : DataFrame) (dimension : String) (hierarchy : List String)
    (target_level : String) : Except String DataFrame :=
  if target_level ∈ hierarchy then
    if (group_columns df hierarchy target_level).isEmpty then
      .error "None of the hierarchy columns found in DataFrame"
    else
      .ok ⟨df.cols, df.numericCols,
        ((df.rows.map (keyOf (group_columns df hierarchy target_level))).dedup).map
          (agg_row df (group_columns df hierarchy target_level))⟩
  else
    .error ("Target level '" ++ target_level ++ "' not in hierarchy")

/-- `roll_up(df, dimension, hierarchy, target_level)`: the source builds the
same groupby with the same aggregation dict as `drill_down` (only the Python
dict-construction style differs), so its model shares `agg_row`. -/
def roll_up (df : DataFrame) (dimension : String) (hierarchy : List String)
    (target_level : String) : Except String DataFrame :=
  if target_level ∈ hierarchy then
    if (group_columns df hierarchy target_level).isEmpty then
      .error ("Target level '" ++ target_level ++ "' not found in DataFrame")
    else
      .ok ⟨df.cols, df.numericCols,
        ((df.rows.map (keyOf (group_columns df hierarchy target_level))).dedup).map
          (agg_row df (group_columns df hierarchy target_level))⟩
  else
    .error ("Target level '" ++ target_level ++ "' not in hierarchy")

/-- Sum of a column over all rows of a frame (the quantity preserved by the
aggregation invariant). -/
def colSum (df : DataFrame) (c : String) : ℚ :=
  (df.rows.map (fun r => (r c).toNum)).sum

/-- `colSum` of the payload of a non-raising OLAP call. -/
def exceptColSum (e : Except String DataFrame) (c : String) : Option ℚ :=
  match e with
  | .ok df => some (colSum df c)
  | .error _ => none

/-! ## rayleigh_model.py — generate_rayleigh_curve

The curve pipeline uses `exp`, so it is modelled over `ℝ` (exact real
arithmetic in place of IEEE doubles; the claim's "within floating tolerance"
becomes exact equality).  Arrays of length `n` are modelled as functions
`ℕ → ℝ` read on `0 .. n-1`. -/

noncomputable section

/-- `np.linspace(a, b, n)`: `n` evenly spaced points from `a` to `b`
inclusive. -/
def linspace (a b : ℝ) (n : ℕ) : ℕ → ℝ :=
  fun i => a + (b - a) * i / (n - 1)

/-- `np.trapz(y, x)` on arrays of length `n`: the trapezoidal sum
`Σ (y i + y (i+1)) / 2 * (x (i+1) - x i)`. -/
def trapz (y x : ℕ → ℝ) (n : ℕ) : ℝ :=
  ∑ i ∈ Finset.range (n - 1), (y i + y (i + 1)) / 2 * (x (i + 1) - x i)

/-- The time axis `np.linspace(0, duration_days, duration_days)`. -/
def ray_time (duration_days : ℕ) : ℕ → ℝ :=
  linspace 0 duration_days duration_days

/-- The unnormalised Rayleigh density samples
`(time / sigma**2) * exp(-(time**2) / (2 * sigma**2))`. -/
def ray_pdf (duration_days : ℕ) (sigma : ℝ) : ℕ → ℝ :=
  fun i => (ray_time duration_days i / sigma ^ 2) *
    Real.exp (-(ray_time duration_days i) ^ 2 / (2 * sigma ^ 2))

/-- `np.trapz(rayleigh_pdf, time)`: the normalisation integral. -/
def ray_integral (duration_days : ℕ) (sigma : ℝ) : ℝ :=
  trapz (ray_pdf duration_days sigma) (ray_time duration_days) duration_days

/-- The `defects_per_day` array: the density rescaled so that its trapezoidal
integral equals `total_defects`, or the all-zero curve when the integral is
not positive. -/
def ray_defects (total_defects : ℝ) (duration_days : ℕ) (sigma : ℝ) : ℕ → ℝ :=
  if ray_integral duration_days sigma > 0 then
    fun i => ray_pdf duration_days sigma i *
      (total_defects / ray_integral duration_days sigma)
  else
    fun _ => 0

/-- The dict returned by `generate_rayleigh_curve`. -/
structure RayleighCurve where
  time : ℕ → ℝ
  defects_per_day : ℕ → ℝ
  cumulative_defects : ℕ → ℝ
  upper_bound : ℕ → ℝ
  lower_bound : ℕ → ℝ
  confidence_level : ℝ
  sigma : ℝ
  peak_day : ℝ
  peak_value : ℝ

/-- `generate_rayleigh_curve` of `rayleigh_model.py`: Rayleigh density over a
daily time axis, renormalised to `total_defects`, with cumulative sums and
`±30%` (confidence ≥ 0.95) or `±20%` bands, the lower band floored at 0;
`peak_day` is `sigma` and `peak_value` the maximum of the per-day curve. -/
def generate_rayleigh_curve (total_defects : ℝ) (duration_days : ℕ)
    (sigma? : Option ℝ) (confidence_level : ℝ) : RayleighCurve :=
  let sigma := sigma?.getD (duration_days * (2/5 : ℝ))
  let defects := ray_defects total_defects duration_days sigma
  let margin : ℝ := if confidence_level ≥ 95/100 then 30/100 else 20/100
  { time := ray_time duration_days
    defects_per_day := defects
    cumulative_defects := fun i => ∑ j ∈ Finset.range (i + 1), defects j
    upper_bound := fun i => defects i * (1 + margin)
    lower_bound := fun i => max (defects i * (1 - margin)) 0
    confidence_level := confidence_level
    sigma := sigma
    peak_day := sigma
    peak_value := (((List.range duration_days).map defects).max?).getD 0 }

end

/-! ## Theorems -/

/-- C2, counterexample: the claim says progress lies in `[0, 100]` for every
`target > 0` and every real `current`, but the source only clamps from above:
for `target = 1`, `current = -1` the progress is `-100`. -/
theorem C2_progress_counterexample :
    (0 : ℚ) < (KeyResult.mk "kr" 1 (-1) "%").target ∧
    (KeyResult.mk "kr" 1 (-1) "%").progress = -100 ∧
    ¬(0 ≤ (KeyResult.mk "kr" 1 (-1) "%").progress) := by
  refine ⟨by norm_num, ?_, ?_⟩ <;> simp [KeyResult.progress]

/-- C2 (amended): for `target > 0` the progress is clamped from above only:
it is always `≤ 100`, and it lies in `[0, 100]` whenever `current ≥ 0`
(a negative `current` drives it below 0).  For `target = 0` the claim holds as
stated: progress is `100` if `current ≥ 0` and `0` otherwise, in particular
`progress(target=0, current=5) = 100` and `progress(target=0, current=-5) = 0`. -/
theorem C2_progress_amended (k : KeyResult) :
    (0 < k.target → k.progress ≤ 100 ∧ (0 ≤ k.current → 0 ≤ k.progress)) ∧
    (k.target = 0 → ((0 ≤ k.current → k.progress = 100) ∧
                     (k.current < 0 → k.progress = 0))) ∧
    (KeyResult.mk "kr" 0 5 "%").progress = 100 ∧
    (KeyResult.mk "kr" 0 (-5) "%").progress = 0 := by
  refine ⟨?_, ?_, ?_, ?_⟩
  · intro ht
    rw [KeyResult.progress, if_neg (ne_of_gt ht)]
    refine ⟨min_le_right _ _, fun hc => le_min ?_ (by norm_num)⟩
    positivity
  · intro ht
    rw [KeyResult.progress, if_pos ht]
    constructor
    · intro hc; rw [if_pos hc]
    · intro hc; rw [if_neg (not_le.mpr hc)]
  · simp [KeyResult.progress]
  · simp [KeyResult.progress]

/-- C2 witness: the amended theorem applied at `target = 10`, `current = 5`. -/
theorem C2_progress_amended_witness :
    (KeyResult.mk "kr" 10 5 "%").progress ≤ 100 ∧
    0 ≤ (KeyResult.mk "kr" 10 5 "%").progress :=
  ⟨((C2_progress_amended ⟨"kr", 10, 5, "%"⟩).1 (by norm_num)).1,
   ((C2_progress_amended ⟨"kr", 10, 5, "%"⟩).1 (by norm_num)).2 (by norm_num)⟩

/-- C10: for any value, `get_kpi_color` on a `kpi_type` outside the six known
KPI names falls through the `thresholds` lookup and returns `"gray"`, which is
none of `"green"`, `"yellow"`, `"red"`. -/
theorem C10_unknown_kpi_gray (v : ℚ) (t : String)
    (h1 : t ≠ "completion_rate") (h2 : t ≠ "budget_efficiency")
    (h3 : t ≠ "team_utilization") (h4 : t ≠ "defect_density")
    (h5 : t ≠ "avg_resolution_time") (h6 : t ≠ "client_satisfaction") :
    get_kpi_color v t = "gray" ∧ get_kpi_color v t ≠ "green" ∧
    get_kpi_color v t ≠ "yellow" ∧ get_kpi_color v t ≠ "red" := by
  have hg : get_kpi_color v t = "gray" := by
    rw [get_kpi_color, kpi_thresholds]
    rw [if_neg h1, if_neg h2, if_neg h3, if_neg h4, if_neg h5, if_neg h6]
  exact ⟨hg, by rw [hg]; decide, by rw [hg]; decide, by rw [hg]; decide⟩

/-- C10 witness: an unknown KPI name at value 5. -/
theorem C10_unknown_kpi_gray_witness :
    get_kpi_color 5 "velocity" = "gray" ∧ get_kpi_color 5 "velocity" ≠ "green" ∧
    get_kpi_color 5 "velocity" ≠ "yellow" ∧ get_kpi_color 5 "velocity" ≠ "red" :=
  C10_unknown_kpi_gray 5 "velocity" (by decide) (by decide) (by decide)
    (by decide) (by decide) (by decide)

/-- C9: `validate_prediction_inputs` returns `False` exactly when a bound is
violated, with an empty message exactly on success, and the two quoted
instances hold; totality of the model realises "never raising". -/
theorem C9_validate_inputs (s m t : ℤ) :
    ((validate_prediction_inputs s m t).1 = false ↔
      (s < 100 ∨ s > 10000000 ∨ m < 1 ∨ m > 36 ∨ t < 1 ∨ t > 100)) ∧
    ((validate_prediction_inputs s m t).2 = "" ↔
      (validate_prediction_inputs s m t).1 = true) ∧
    validate_prediction_inputs 50 6 5 =
      (false, "Tamaño de proyecto debe ser al menos 100 LOC") ∧
    (validate_prediction_inputs 50 6 5).2 ≠ "" ∧
    validate_prediction_inputs 500000 6 5 = (true, "") := by
  refine ⟨?_, ?_, by decide, by decide, by decide⟩ <;>
  · rw [validate_prediction_inputs]
    split_ifs with h1 h2 h3 h4 <;> simp_all <;> omega

/-- C8: `recommend_qa_resources` computes
`qa_engineers = ceil(max(predictedDefects/50 * multiplier, 1))` with the
duration multiplier 1.3 / 1.0 / 0.9, risk tiers at 30 and 80 (source labels
"Bajo"/"Medio"/"Alto"), and the quoted instance gives 3 engineers, "Alto". -/
theorem C8_recommend_qa (d : ℚ) (m : ℤ) (hd : 0 ≤ d) (hm : 1 ≤ m) :
    (recommend_qa_resources d m).qa_engineers =
      ⌈max (d / 50 * (if m ≤ 3 then (13 : ℚ)/10 else if m ≤ 6 then 1 else 9/10)) 1⌉ ∧
    (d < 30 → (recommend_qa_resources d m).risk_level = "Bajo") ∧
    (30 ≤ d → d < 80 → (recommend_qa_resources d m).risk_level = "Medio") ∧
    (80 ≤ d → (recommend_qa_resources d m).risk_level = "Alto") ∧
    (recommend_qa_resources 120 6).qa_engineers = 3 ∧
    (recommend_qa_resources 120 6).risk_level = "Alto" := by
  refine ⟨rfl, ?_, ?_, ?_,
    by rw [recommend_qa_resources]; norm_num [Int.ceil_eq_iff],
    by rw [recommend_qa_resources]; norm_num⟩
  · intro h; rw [recommend_qa_resources]; simp only [if_pos h]
  · intro h1 h2
    rw [recommend_qa_resources]
    simp only [if_neg (not_lt.mpr h1), if_pos h2]
  · intro h
    rw [recommend_qa_resources]
    simp only [if_neg (not_lt.mpr (by linarith : (30 : ℚ) ≤ d)),
               if_neg (not_lt.mpr h)]

/-- C8 witness: the theorem applied at the quoted instance (120 defects,
6 months). -/
theorem C8_recommend_qa_witness :
    (recommend_qa_resources 120 6).risk_level = "Alto" :=
  (C8_recommend_qa 120 6 (by norm_num) (by norm_num)).2.2.2.1 (by norm_num)

/-- C1, counterexample: the claim says all six calculators return a zero
value with status "No data" on empty input, but `calculate_client_satisfaction`
on empty inputs composes `0.4 * min(0*2,100) + 0.6 * max(100-0*2,0) = 60.0`
with status "warning". -/
theorem C1_empty_satisfaction_counterexample :
    (calculate_client_satisfaction [] []).value = 60 ∧
    (calculate_client_satisfaction [] []).status = "warning" ∧
    ¬((calculate_client_satisfaction [] []).value = 0 ∧
      (calculate_client_satisfaction [] []).status = "No data") := by
  have hv : (calculate_client_satisfaction [] []).value = 60 := by
    norm_num [calculate_client_satisfaction, calculate_budget_efficiency,
      calculate_defect_density, py_round, round_half_even]
  have hs : (calculate_client_satisfaction [] []).status = "warning" := by
    norm_num [calculate_client_satisfaction, calculate_budget_efficiency,
      calculate_defect_density]
  exact ⟨hv, hs, fun h => by rw [hv] at h; exact absurd h.1 (by norm_num)⟩

/-- C1 (amended): on empty input, five of the six calculators (completion
rate, budget efficiency, team utilization, defect density, avg resolution
time) return a zero value, status "No data" and zeroed metrics;
`calculate_client_satisfaction` instead returns the composite 60.0 with
status "warning" (budget component 0, quality component 100).  None raises:
each is a total function of the record lists. -/
theorem C1_empty_inputs_amended :
    calculate_completion_rate [] = ⟨0, 0, 0, 0, "No data"⟩ ∧
    calculate_budget_efficiency [] = ⟨0, 0, 0, 0, 0, "No data"⟩ ∧
    calculate_team_utilization [] = ⟨0, 0, 0, 0, 0, "No data"⟩ ∧
    calculate_defect_density [] [] = ⟨0, 0, 0, 0, [], "No data"⟩ ∧
    calculate_avg_resolution_time [] = ⟨0, 0, 0, [], "No data"⟩ ∧
    (calculate_client_satisfaction [] []).value = 60 ∧
    (calculate_client_satisfaction [] []).budget_component = 0 ∧
    (calculate_client_satisfaction [] []).quality_component = 100 ∧
    (calculate_client_satisfaction [] []).status = "warning" := by
  refine ⟨by decide, by decide, by decide, by decide, by decide, ?_, ?_, ?_, ?_⟩ <;>
    norm_num [calculate_client_satisfaction, calculate_budget_efficiency,
      calculate_defect_density, py_round, round_half_even]

/-- C4: evaluation of `calibrate_rayleigh_sigma` at a non-empty history (two
projects, 5 and 3 defects).  The source's own inline comments derive the tier
estimates as 40% of the assumed duration — `3 months * 0.4 = 36 days` and
`8 months * 0.4 = 96 days` — yet it stores `small = 40.0` and `large = 100.0`;
`medium = 66` and `xlarge = 144` do match `165 * 0.4` and `360 * 0.4`.  The
historical mean is reported (here `(5+3)/2 = 4`), and the empty-history
fallback carries no `xlarge` key at all. -/
theorem C4_calibrate_sigma_eval :
    (calibrate_rayleigh_sigma [⟨"p1", "alta", 5⟩, ⟨"p2", "baja", 3⟩] []).small = 40 ∧
    (calibrate_rayleigh_sigma [⟨"p1", "alta", 5⟩, ⟨"p2", "baja", 3⟩] []).large = 100 ∧
    ((90 : ℚ) * (2/5) = 36 ∧ (40 : ℚ) ≠ 36) ∧
    ((240 : ℚ) * (2/5) = 96 ∧ (100 : ℚ) ≠ 96) ∧
    (calibrate_rayleigh_sigma [⟨"p1", "alta", 5⟩, ⟨"p2", "baja", 3⟩] []).medium = 66 ∧
    (calibrate_rayleigh_sigma [⟨"p1", "alta", 5⟩, ⟨"p2", "baja", 3⟩] []).xlarge = some 144 ∧
    (calibrate_rayleigh_sigma
        [⟨"p1", "alta", 5⟩, ⟨"p2", "baja", 3⟩] []).avg_historical_defects = some 4 ∧
    (calibrate_rayleigh_sigma [] []).xlarge = none := by
  have hsums : project_defect_sums [⟨"p1", "alta", 5⟩, ⟨"p2", "baja", 3⟩] = [5, 3] := by
    simp [project_defect_sums]
  refine ⟨?_, ?_, by norm_num, by norm_num, ?_, ?_, ?_,
    by simp [calibrate_rayleigh_sigma, project_defect_sums]⟩ <;>
    simp [calibrate_rayleigh_sigma, hsums] <;> norm_num

/-- A concrete OKR used to exercise the hierarchy builder: two key results at
50% and 100% progress, so its overall progress is 75. -/
def demoOKR : OKR :=
  ⟨"Objetivo financiero", [⟨"kr uno", 10, 5, "%"⟩, ⟨"kr dos", 10, 10, "%"⟩],
   "CEO", "Q1 2025", "Financial"⟩

/-- A one-objective input for `create_okr_hierarchy`. -/
def demoOKRs : List OKR := [demoOKR]

/-- C3, counterexample: the claim says every perspective node carries a
numeric value equal to the mean of its objectives' values, but the source
builds perspective nodes with only `'name'` and `'children'` keys: on a
one-objective list whose objective progress is 75 (so the claimed mean is 75),
the perspective node's value is `none`, not `some 75`. -/
theorem C3_perspective_value_counterexample :
    (create_okr_hierarchy demoOKRs).children.map HNode.value = [none] ∧
    demoOKRs.map OKR.overall_progress = [75] ∧
    (create_okr_hierarchy demoOKRs).children.map HNode.value ≠ [some 75] := by
  refine ⟨by decide, ?_, ?_⟩
  · norm_num [demoOKRs, demoOKR, OKR.overall_progress, KeyResult.progress]
  · intro h
    have h0 : (create_okr_hierarchy demoOKRs).children.map HNode.value = [none] := by
      decide
    rw [h0] at h
    simp at h

/-- C3 (amended): `create_okr_hierarchy` does build the 3-level tree — root
"Strategic OKRs" over perspective nodes over objective nodes over key-result
leaves, with objective node value = overall progress, leaf value = key-result
progress, and labels truncated at 40/30 characters — but the root and the
perspective nodes carry no numeric value at all (no `'value'` key), rather
than the mean of the objective values. -/
theorem C3_hierarchy_amended (okrs : List OKR) (okr : OKR) (h : okr ∈ okrs) :
    (create_okr_hierarchy okrs).name = "Strategic OKRs" ∧
    (create_okr_hierarchy okrs).value = none ∧
    ∃ pn ∈ (create_okr_hierarchy okrs).children,
      pn.name = okr.perspective ∧ pn.value = none ∧
      okr_node okr ∈ pn.children ∧
      (okr_node okr).name = truncate_label 40 okr.objective ∧
      (okr_node okr).value = some okr.overall_progress ∧
      (okr_node okr).children.map HNode.value =
        okr.key_results.map (fun kr => some kr.progress) ∧
      (okr_node okr).children.map HNode.name =
        okr.key_results.map (fun kr => truncate_label 30 kr.kr) := by
  refine ⟨rfl, rfl, ?_⟩
  refine ⟨HNode.mk okr.perspective none
      ((okrs.filter (fun o => o.perspective == okr.perspective)).map okr_node),
    ?_, rfl, rfl, ?_, rfl, rfl, ?_, ?_⟩
  · exact List.mem_map_of_mem _
      (List.mem_dedup.mpr (List.mem_map_of_mem _ h))
  · exact List.mem_map_of_mem _
      (List.mem_filter.mpr ⟨h, by simp⟩)
  · simp [okr_node, HNode.value, HNode.children, List.map_map, Function.comp]
  · simp [okr_node, HNode.name, HNode.children, List.map_map, Function.comp]

/-- C3 witness: the amended theorem applied to the one-objective input. -/
theorem C3_hierarchy_amended_witness :
    (create_okr_hierarchy demoOKRs).name = "Strategic OKRs" ∧
    (create_okr_hierarchy demoOKRs).value = none :=
  ⟨(C3_hierarchy_amended demoOKRs demoOKR (by decide)).1,
   (C3_hierarchy_amended demoOKRs demoOKR (by decide)).2.1⟩

/-- Filtering a list by a predicate and by its negation partitions its
length. -/
theorem length_filter_add_length_filter_not {α : Type} (l : List α) (p : α → Bool) :
    (l.filter p).length + (l.filter (fun a => !(p a))).length = l.length := by
  induction l with
  | nil => rfl
  | cons a l ih =>
    by_cases h : p a <;> simp [List.filter_cons, h] <;> omega

/-- C6: for a dimension that is a column and a value present in the table,
`slice_olap` succeeds, keeps exactly the rows whose cell at the dimension
equals the value, and its row count plus the count of rows whose cell differs
makes up the whole table. -/
theorem C6_slice_partition (df : DataFrame) (D : String) (v : Value)
    (hcol : D ∈ df.cols) (hpresent : ∃ r ∈ df.rows, r D = v) :
    ∃ S, slice_olap df D v = .ok S ∧
      (∀ r ∈ S.rows, r D = v) ∧
      S.rows.length +
        (df.rows.filter (fun r => !(r D == v))).length = df.rows.length := by
  refine ⟨⟨df.cols, df.numericCols, df.rows.filter (fun r => r D == v)⟩,
    by rw [slice_olap, if_pos hcol], ?_, ?_⟩
  · intro r hr
    have := List.of_mem_filter hr
    exact eq_of_beq this
  · exact length_filter_add_length_filter_not df.rows (fun r => r D == v)

/-- First demo row for the slice witness. -/
def sliceRow1 : String → Value := fun c => if c = "pais" then .str "China" else .num 10

/-- Second demo row for the slice witness. -/
def sliceRow2 : String → Value := fun c => if c = "pais" then .str "Peru" else .num 5

/-- Third demo row for the slice witness. -/
def sliceRow3 : String → Value := fun c => if c = "pais" then .str "China" else .num 7

/-- Demo table for the slice witness: three rows, two of them in "China". -/
def sliceDemoTable : DataFrame :=
  ⟨["pais", "ventas"], ["ventas"], [sliceRow1, sliceRow2, sliceRow3]⟩

/-- C6 witness: slicing the demo table on `pais = "China"`. -/
theorem C6_slice_partition_witness :
    ∃ S, slice_olap sliceDemoTable "pais" (.str "China") = .ok S ∧
      (∀ r ∈ S.rows, r "pais" = .str "China") ∧
      S.rows.length +
        (sliceDemoTable.rows.filter
          (fun r => !(r "pais" == .str "China"))).length =
        sliceDemoTable.rows.length :=
  C6_slice_partition sliceDemoTable "pais" (.str "China") (by decide)
    ⟨sliceRow1, List.mem_cons_self _ _, by decide⟩

/-- Splitting a mapped sum along a Boolean predicate. -/
theorem sum_map_filter_split {α : Type} (f : α → ℚ) (p : α → Bool) (l : List α) :
    ((l.filter p).map f).sum + ((l.filter (fun a => !(p a))).map f).sum =
      (l.map f).sum := by
  induction l with
  | nil => simp
  | cons a l ih =>
    by_cases h : p a <;> simp [List.filter_cons, h, ← ih] <;> ring

/-- Grouping a list by key values drawn from a duplicate-free covering list
and summing per group gives the total sum. -/
theorem sum_partition_by_key {α κ : Type} [BEq κ] [LawfulBEq κ] (f : α → ℚ) (key : α → κ) :
    ∀ (ks : List κ) (l : List α), ks.Nodup → (∀ r ∈ l, key r ∈ ks) →
      (ks.map (fun k => ((l.filter (fun r => key r == k)).map f).sum)).sum =
        (l.map f).sum := by
  intro ks
  induction ks with
  | nil =>
    intro l _ hcov
    have hl : l = [] := List.eq_nil_iff_forall_not_mem.mpr
      (fun r hr => by simpa using hcov r hr)
    subst hl; rfl
  | cons k ks ih =>
    intro l hnd hcov
    have hknotin : k ∉ ks := (List.nodup_cons.mp hnd).1
    have hrest : ∀ k2 ∈ ks, l.filter (fun r => key r == k2) =
        (l.filter (fun r => !(key r == k))).filter (fun r => key r == k2) := by
      intro k2 hk2
      rw [List.filter_filter]
      apply List.filter_congr
      intro r _
      by_cases h : key r = k2
      · have hne : key r ≠ k := fun hrk => hknotin (hrk ▸ h ▸ hk2)
        have h2 : ¬k2 = k := fun hk => hne (hk ▸ h)
        simp [h, h2]
      · simp [h]
    have hcov2 : ∀ r ∈ l.filter (fun r => !(key r == k)), key r ∈ ks := by
      intro r hr
      have hmem := List.mem_of_mem_filter hr
      have hne : key r ≠ k := by
        simpa using List.of_mem_filter hr
      rcases List.mem_cons.mp (hcov r hmem) with h | h
      · exact absurd h hne
      · exact h
    have ihx := ih (l.filter (fun r => !(key r == k))) (List.nodup_cons.mp hnd).2 hcov2
    calc ((k :: ks).map
            (fun k2 => ((l.filter (fun r => key r == k2)).map f).sum)).sum
        = ((l.filter (fun r => key r == k)).map f).sum +
            (ks.map (fun k2 => ((l.filter (fun r => key r == k2)).map f).sum)).sum := by
          simp
      _ = ((l.filter (fun r => key r == k)).map f).sum +
            (ks.map (fun k2 => (((l.filter (fun r => !(key r == k))).filter
              (fun r => key r == k2)).map f).sum)).sum := by
          congr 1
          apply congrArg List.sum
          apply List.map_congr_left
          intro k2 hk2
          rw [hrest k2 hk2]
      _ = ((l.filter (fun r => key r == k)).map f).sum +
            ((l.filter (fun r => !(key r == k))).map f).sum := by rw [ihx]
      _ = (l.map f).sum := sum_map_filter_split f _ l

/-- The aggregated cell of a numeric non-grouping column is the group's sum. -/
theorem agg_row_numeric (df : DataFrame) (group_cols : List String)
    (k : List Value) (c : String) (hnum : c ∈ df.numericCols)
    (hkey : c ∉ group_cols) :
    ((agg_row df group_cols k) c).toNum =
      ((df.rows.filter (fun r => keyOf group_cols r == k)).map
        (fun r => (r c).toNum)).sum := by
  rw [agg_row]
  simp only [if_neg hkey, if_pos hnum]
  rfl

/-- C7: whenever `drill_down` (resp. `roll_up`) accepts its arguments — the
target level is in the hierarchy and some hierarchy column exists in the
table — the sum of any numeric non-grouping column over the grouped output
equals its sum over the input table. -/
theorem C7_groupby_sum_invariant (df : DataFrame) (dim : String)
    (hierarchy : List String) (target c : String)
    (hnum : c ∈ df.numericCols)
    (hkey : c ∉ group_columns df hierarchy target)
    (ht : target ∈ hierarchy)
    (hg : (group_columns df hierarchy target).isEmpty = false) :
    exceptColSum (drill_down df dim hierarchy target) c = some (colSum df c) ∧
    exceptColSum (roll_up df dim hierarchy target) c = some (colSum df c) := by
  have hmain : colSum
      ⟨df.cols, df.numericCols,
        ((df.rows.map (keyOf (group_columns df hierarchy target))).dedup).map
          (agg_row df (group_columns df hierarchy target))⟩ c = colSum df c := by
    rw [colSum, List.map_map]
    have hptw : ∀ k ∈ (df.rows.map (keyOf (group_columns df hierarchy target))).dedup,
        ((fun r => (r c).toNum) ∘ agg_row df (group_columns df hierarchy target)) k =
          ((df.rows.filter
            (fun r => keyOf (group_columns df hierarchy target) r == k)).map
              (fun r => (r c).toNum)).sum := by
      intro k _
      exact agg_row_numeric df _ k c hnum hkey
    rw [List.map_congr_left hptw]
    exact sum_partition_by_key (fun r => (r c).toNum)
      (keyOf (group_columns df hierarchy target))
      ((df.rows.map (keyOf (group_columns df hierarchy target))).dedup) df.rows
      (List.nodup_dedup _)
      (fun r hr => List.mem_dedup.mpr (List.mem_map_of_mem _ hr))
  constructor
  · rw [drill_down, if_pos ht, if_neg (by simp [hg])]
    rw [exceptColSum, hmain]
  · rw [roll_up, if_pos ht, if_neg (by simp [hg])]
    rw [exceptColSum, hmain]

/-- First demo row for the group-by witness. -/
def groupRow1 : String → Value :=
  fun c => if c = "pais" then .str "PE" else if c = "ciudad" then .str "Lima" else .num 10

/-- Second demo row for the group-by witness. -/
def groupRow2 : String → Value :=
  fun c => if c = "pais" then .str "PE" else if c = "ciudad" then .str "Cusco" else .num 5

/-- Third demo row for the group-by witness. -/
def groupRow3 : String → Value :=
  fun c => if c = "pais" then .str "CL" else if c = "ciudad" then .str "Santiago" else .num 7

/-- Demo table for the group-by witness: sales by country and city. -/
def groupDemoTable : DataFrame :=
  ⟨["pais", "ciudad", "ventas"], ["ventas"], [groupRow1, groupRow2, groupRow3]⟩

/-- C7 witness: drilling the demo table down to the country level preserves
the total of the numeric column "ventas". -/
theorem C7_groupby_sum_invariant_witness :
    exceptColSum (drill_down groupDemoTable "geo" ["pais", "ciudad"] "pais") "ventas" =
      some (colSum groupDemoTable "ventas") ∧
    exceptColSum (roll_up groupDemoTable "geo" ["pais", "ciudad"] "pais") "ventas" =
      some (colSum groupDemoTable "ventas") :=
  C7_groupby_sum_invariant groupDemoTable "geo" ["pais", "ciudad"] "pais" "ventas"
    (by decide) (by decide) (by decide) (by decide)

/-- The time axis for a 180-day project: `linspace(0, 180, 180)` has step
`180/179`. -/
theorem ray_time_eq_180 (i : ℕ) : ray_time 180 i = 180 * i / 179 := by
  unfold ray_time linspace
  norm_num

/-- Consecutive time points are `180/179` apart. -/
theorem ray_time_delta_180 (i : ℕ) :
    ray_time 180 (i + 1) - ray_time 180 i = 180 / 179 := by
  rw [ray_time_eq_180, ray_time_eq_180]
  push_cast
  ring

/-- The sampled Rayleigh density is nonnegative everywhere. -/
theorem ray_pdf_nonneg_180 (i : ℕ) : 0 ≤ ray_pdf 180 72 i := by
  unfold ray_pdf
  rw [ray_time_eq_180]
  positivity

/-- The sampled Rayleigh density is positive at the second time point. -/
theorem ray_pdf_pos_180 : 0 < ray_pdf 180 72 1 := by
  unfold ray_pdf
  rw [ray_time_eq_180]
  positivity

/-- The discretized normalisation integral of the 180-day, sigma-72 curve is
positive, so `generate_rayleigh_curve` takes its rescaling branch. -/
theorem ray_integral_pos_180 : 0 < ray_integral 180 72 := by
  unfold ray_integral trapz
  apply Finset.sum_pos'
  · intro i _
    rw [ray_time_delta_180]
    exact mul_nonneg
      (div_nonneg (add_nonneg (ray_pdf_nonneg_180 i) (ray_pdf_nonneg_180 (i + 1)))
        (by norm_num))
      (by norm_num)
  · refine ⟨0, Finset.mem_range.mpr (by norm_num), ?_⟩
    rw [ray_time_delta_180]
    exact mul_pos
      (div_pos (add_pos_of_nonneg_of_pos (ray_pdf_nonneg_180 0) ray_pdf_pos_180)
        (by norm_num))
      (by norm_num)

/-- The trapezoidal sum is homogeneous in a constant factor on the values. -/
theorem trapz_mul_const (y x : ℕ → ℝ) (n : ℕ) (c : ℝ) :
    trapz (fun i => y i * c) x n = trapz y x n * c := by
  unfold trapz
  rw [Finset.sum_mul]
  apply Finset.sum_congr rfl
  intro i _
  ring

/-- Each point of the renormalised 180-day, sigma-72 curve is nonnegative. -/
theorem ray_defects_nonneg_180 (i : ℕ) : 0 ≤ ray_defects 100 180 72 i := by
  unfold ray_defects
  rw [if_pos ray_integral_pos_180]
  exact mul_nonneg (ray_pdf_nonneg_180 i)
    (div_nonneg (by norm_num) ray_integral_pos_180.le)

/-- C5: for `total_defects = 100`, `duration_days = 180`, `sigma = 72` (and
the default confidence 0.95), the curve returned by `generate_rayleigh_curve`
has trapezoidal integral exactly 100 (exact real arithmetic in place of the
claim's floating tolerance), reports `peak_day = 72`, and satisfies
`lower_bound ≤ defects_per_day ≤ upper_bound` at every point. -/
theorem C5_rayleigh_curve_properties :
    (generate_rayleigh_curve 100 180 (some 72) (95/100)).peak_day = 72 ∧
    trapz (generate_rayleigh_curve 100 180 (some 72) (95/100)).defects_per_day
      (generate_rayleigh_curve 100 180 (some 72) (95/100)).time 180 = 100 ∧
    ∀ i,
      (generate_rayleigh_curve 100 180 (some 72) (95/100)).lower_bound i ≤
        (generate_rayleigh_curve 100 180 (some 72) (95/100)).defects_per_day i ∧
      (generate_rayleigh_curve 100 180 (some 72) (95/100)).defects_per_day i ≤
        (generate_rayleigh_curve 100 180 (some 72) (95/100)).upper_bound i := by
  have hdef : (generate_rayleigh_curve 100 180 (some 72) (95/100)).defects_per_day =
      ray_defects 100 180 72 := by
    simp [generate_rayleigh_curve]
  have htime : (generate_rayleigh_curve 100 180 (some 72) (95/100)).time =
      ray_time 180 := by
    simp [generate_rayleigh_curve]
  have hmargin : ∀ i,
      (generate_rayleigh_curve 100 180 (some 72) (95/100)).lower_bound i =
        max (ray_defects 100 180 72 i * (1 - 30/100)) 0 ∧
      (generate_rayleigh_curve 100 180 (some 72) (95/100)).upper_bound i =
        ray_defects 100 180 72 i * (1 + 30/100) := by
    intro i
    constructor <;> simp [generate_rayleigh_curve]
  refine ⟨by simp [generate_rayleigh_curve], ?_, ?_⟩
  · rw [hdef, htime]
    have hbranch : ray_defects 100 180 72 =
        fun i => ray_pdf 180 72 i * (100 / ray_integral 180 72) := by
      unfold ray_defects
      rw [if_pos ray_integral_pos_180]
    rw [hbranch, trapz_mul_const]
    have : trapz (ray_pdf 180 72) (ray_time 180) 180 = ray_integral 180 72 := rfl
    rw [this, mul_comm, div_mul_cancel₀ _ (ne_of_gt ray_integral_pos_180)]
  · intro i
    have hd := ray_defects_nonneg_180 i
    rw [hdef, (hmargin i).1, (hmargin i).2]
    constructor
    · apply max_le _ hd
      nlinarith
    · nlinarith

end EmpresaSoftware
